import Mathlib

/-!
Shallow embedding of `backend/score_engine.py` (trading-bot-back).

Numeric signal values (`score`, `slope`, `slow_mom`) are embedded as `ℚ`;
every threshold in the source (10.0, 6.0, 1.0, 2.0, 12.0) is exactly
representable, so float comparisons coincide with rational comparisons on
the inputs the claims quantify over.  Python `None` for an optional
argument is embedded as `Option.none`; the source's falsy-coercions
(`x or default`) are embedded by `pyOrStr` / `pyOrRat` / the fact that
`float(x or 0.0)` and `int(x or 0)` are the identity on present values.
Runner methods are embedded as explicit state-passing functions
`state → args → result × state`.
-/

namespace ScoreEngine

/-- Embeds Python `str(x or dflt)`: `None` and the empty string are falsy and
map to the default; any other string is returned unchanged. -/
def pyOrStr (x : Option String) (dflt : String) : String :=
  match x with
  | none => dflt
  | some s => if s = "" then dflt else s

/-- Embeds Python `float(x or 0.0)`: `None` maps to `0.0`; a present float is
returned unchanged (`0.0 or 0.0` is `0.0`, so the coercion is the identity on
present values). -/
def pyOrRat (x : Option ℚ) : ℚ := x.getD 0

/-- Dataclass `ExitDecision` of `score_engine.py` (lines 7-10). -/
structure ExitDecision where
  should_exit : Bool
  reason : String := ""
deriving DecidableEq

/-- Dataclass `EntryDecision` of `score_engine.py` (lines 13-17). -/
structure EntryDecision where
  should_enter : Bool
  option_type : String := ""
  reason : String := ""
deriving DecidableEq

/-- `decide_exit_mds` of `score_engine.py` (lines 20-58), embedded branch by
branch: an outer `if`/`elif` chain on the position side selects a band by
score (and, for momentum loss, slope), and a nested check on `slow_mom`
decides whether the exit actually fires. -/
def decide_exit_mds (position_type : String) (score slope slow_mom : ℚ) :
    ExitDecision :=
  let neutral := |score| ≤ 6
  if position_type = "CE" then
    if score ≤ -10 then
      if slow_mom ≤ -1 then ⟨true, "MDS Reversal (slow confirm)"⟩
      else ⟨false, ""⟩
    else if neutral then
      if |slow_mom| ≤ 1 then ⟨true, "MDS Neutral (slow confirm)"⟩
      else ⟨false, ""⟩
    else if slope ≤ -2 ∧ score < 12 then
      if slow_mom ≤ 0 then ⟨true, "MDS Momentum Loss (slow confirm)"⟩
      else ⟨false, ""⟩
    else ⟨false, ""⟩
  else if position_type = "PE" then
    if 10 ≤ score then
      if 1 ≤ slow_mom then ⟨true, "MDS Reversal (slow confirm)"⟩
      else ⟨false, ""⟩
    else if neutral then
      if |slow_mom| ≤ 1 then ⟨true, "MDS Neutral (slow confirm)"⟩
      else ⟨false, ""⟩
    else if 2 ≤ slope ∧ -12 < score then
      if 0 ≤ slow_mom then ⟨true, "MDS Momentum Loss (slow confirm)"⟩
      else ⟨false, ""⟩
    else ⟨false, ""⟩
  else ⟨false, ""⟩

/-- `decide_entry_mds` of `score_engine.py` (lines 61-90): a cascade of six
gates, each returning at its first failure with a distinct reason code. -/
def decide_entry_mds (ready is_choppy : Bool) (direction : String)
    (score slope : ℚ) (confirm_count confirm_needed : Int) : EntryDecision :=
  if ready = false then ⟨false, "", "mds_not_ready"⟩
  else if is_choppy then ⟨false, "", "mds_choppy"⟩
  else if direction = "NONE" then ⟨false, "", "neutral_band"⟩
  else if |score| < 10 then ⟨false, "", "score_too_low"⟩
  else if |slope| < 1 then ⟨false, "", "slope_too_low"⟩
  else if confirm_count < confirm_needed then ⟨false, "", "arming"⟩
  else ⟨true, if direction = "CE" then "CE" else "PE", ""⟩

/-- Dataclass `StrategyExitDecision` of `score_engine.py` (lines 97-100). -/
structure StrategyExitDecision where
  should_exit : Bool
  reason : String := ""
deriving DecidableEq

/-- Dataclass `StrategyEntryDecision` of `score_engine.py` (lines 103-109).
`confirm_needed` is typed `int` in the source signature, so the coercion
`int(confirm_needed or 0)` at lines 184/192 is the identity and the field is
embedded as `Int`. -/
structure StrategyEntryDecision where
  should_enter : Bool
  option_type : String := ""
  reason : String := ""
  confirm_count : Int := 0
  confirm_needed : Int := 0
deriving DecidableEq

/-- Mutable state of `ScoreMdsRunner` (`score_engine.py` lines 112-120):
`self._last_direction : Optional[str]` and `self._confirm_count : int`. -/
structure ScoreMdsRunner where
  last_direction : Option String
  confirm_count : Int
deriving DecidableEq

/-- `ScoreMdsRunner.__init__` (lines 118-120). -/
def ScoreMdsRunner.init : ScoreMdsRunner := ⟨none, 0⟩

/-- `ScoreMdsRunner.reset` (lines 122-124). -/
def ScoreMdsRunner.reset (_ : ScoreMdsRunner) : ScoreMdsRunner := ⟨none, 0⟩

/-- `ScoreMdsRunner.on_entry_attempted` (lines 126-128): clears
`_confirm_count` to 0, leaves `_last_direction` untouched. -/
def ScoreMdsRunner.on_entry_attempted (s : ScoreMdsRunner) : ScoreMdsRunner :=
  { s with confirm_count := 0 }

/-- `ScoreMdsRunner.decide_exit` (lines 130-137): coerces falsy/absent inputs
(`str(position_type or "")`, `float(x or 0.0)`) and delegates to
`decide_exit_mds`; reads and writes no runner state, so the state is returned
unchanged.  The wrapping `bool(d.should_exit)` and `str(d.reason or "")` are
the identity on the dataclass fields. -/
def ScoreMdsRunner.decide_exit (s : ScoreMdsRunner) (position_type : Option String)
    (score slope slow_mom : Option ℚ) : StrategyExitDecision × ScoreMdsRunner :=
  let d := decide_exit_mds (pyOrStr position_type "") (pyOrRat score)
    (pyOrRat slope) (pyOrRat slow_mom)
  (⟨d.should_exit, d.reason⟩, s)

/-- `ScoreMdsRunner.decide_entry` (lines 139-193).  `direction` is first
normalized by `str(direction or "NONE")`; `ready=false` and `is_choppy=true`
return early without touching the state (decision fields `confirm_count` and
`confirm_needed` keep their dataclass defaults 0); the `neutral_band`,
`score_too_low` and `slope_too_low` cases store the normalized direction and
reset the counter to 0; otherwise the counter is incremented on a repeated
direction or restarted at 1, and `decide_entry_mds` is consulted with the
updated counter. -/
def ScoreMdsRunner.decide_entry (s : ScoreMdsRunner) (ready is_choppy : Bool)
    (direction : Option String) (score slope : Option ℚ) (confirm_needed : Int) :
    StrategyEntryDecision × ScoreMdsRunner :=
  let dir := pyOrStr direction "NONE"
  if ready = false then (⟨false, "", "mds_not_ready", 0, 0⟩, s)
  else if is_choppy then (⟨false, "", "mds_choppy", 0, 0⟩, s)
  else if dir = "NONE" then
    (⟨false, "", "neutral_band", 0, confirm_needed⟩, ⟨some dir, 0⟩)
  else if |pyOrRat score| < 10 then
    (⟨false, "", "score_too_low", 0, confirm_needed⟩, ⟨some dir, 0⟩)
  else if |pyOrRat slope| < 1 then
    (⟨false, "", "slope_too_low", 0, confirm_needed⟩, ⟨some dir, 0⟩)
  else
    let cc : Int := if s.last_direction = some dir then s.confirm_count + 1 else 1
    let d := decide_entry_mds ready is_choppy dir (pyOrRat score) (pyOrRat slope)
      cc confirm_needed
    (⟨d.should_enter, d.option_type, d.reason, cc, confirm_needed⟩, ⟨some dir, cc⟩)

end ScoreEngine

namespace ScoreEngine

/-- Helper: a qualifying observation (ready, not choppy, a non-empty direction other
than `"NONE"`, `|score| ≥ 10`, `|slope| ≥ 1`) stores the direction, increments the
counter on a repeated direction (else restarts it at 1), and enters iff the updated
counter has reached `confirm_needed`. -/
lemma decide_entry_qualifying (s : ScoreMdsRunner) (d : String) (score slope : ℚ) (cn : Int)
    (hd0 : ¬ d = "") (hdN : ¬ d = "NONE")
    (hs : 10 ≤ |score|) (hl : 1 ≤ |slope|) :
    ScoreMdsRunner.decide_entry s true false (some d) (some score) (some slope) cn =
      ((if (if s.last_direction = some d then s.confirm_count + 1 else 1) < cn
        then ⟨false, "", "arming", if s.last_direction = some d then s.confirm_count + 1 else 1, cn⟩
        else ⟨true, if d = "CE" then "CE" else "PE", "",
          if s.last_direction = some d then s.confirm_count + 1 else 1, cn⟩),
       ⟨some d, if s.last_direction = some d then s.confirm_count + 1 else 1⟩) := by
  simp [ScoreMdsRunner.decide_entry, decide_entry_mds, pyOrStr, pyOrRat,
    hd0, hdN, not_lt.mpr hs, not_lt.mpr hl]
  split_ifs <;> rfl

/-- C1 (counterexample): a `decide_entry` call with `ready = false` on a Runner
holding `last_direction = some "CE"`, `confirm_count = 2` and supplied direction
`"PE"` leaves the state at `⟨some "CE", 2⟩`; the claim's prediction — state
`last_direction` equal to the normalized supplied direction and `confirm_count = 0`
— is false there. -/
theorem not_ready_does_not_reset_state_cex :
    (ScoreMdsRunner.decide_entry ⟨some "CE", 2⟩ false false (some "PE") (some 20)
        (some 3) 3).2 = ⟨some "CE", 2⟩ ∧
    ¬ ((ScoreMdsRunner.decide_entry ⟨some "CE", 2⟩ false false (some "PE") (some 20)
          (some 3) 3).2.last_direction = some (pyOrStr (some "PE") "NONE") ∧
       (ScoreMdsRunner.decide_entry ⟨some "CE", 2⟩ false false (some "PE") (some 20)
          (some 3) 3).2.confirm_count = 0) := by
  decide

/-- C1 (amended): the disqualifying conditions direction `NONE`, `|score| < 10`
and `|slope| < 1` set `last_direction` to the normalized direction, reset
`confirm_count` to 0 and return the corresponding failure decision carrying
`confirm_count = 0` and the supplied `confirm_needed`; the earlier gates
`ready = false` and `is_choppy = true` return their failure decision (with
`confirm_count = 0` and `confirm_needed = 0`) leaving the Runner state unchanged. -/
theorem runner_gate_failure_cases (s : ScoreMdsRunner) (ready is_choppy : Bool)
    (direction : Option String) (score slope : Option ℚ) (cn : Int) :
    (ready = false →
      ScoreMdsRunner.decide_entry s ready is_choppy direction score slope cn
        = (⟨false, "", "mds_not_ready", 0, 0⟩, s))
    ∧ (ready = true → is_choppy = true →
      ScoreMdsRunner.decide_entry s ready is_choppy direction score slope cn
        = (⟨false, "", "mds_choppy", 0, 0⟩, s))
    ∧ (ready = true → is_choppy = false → pyOrStr direction "NONE" = "NONE" →
      ScoreMdsRunner.decide_entry s ready is_choppy direction score slope cn
        = (⟨false, "", "neutral_band", 0, cn⟩, ⟨some (pyOrStr direction "NONE"), 0⟩))
    ∧ (ready = true → is_choppy = false → pyOrStr direction "NONE" ≠ "NONE" →
        |pyOrRat score| < 10 →
      ScoreMdsRunner.decide_entry s ready is_choppy direction score slope cn
        = (⟨false, "", "score_too_low", 0, cn⟩, ⟨some (pyOrStr direction "NONE"), 0⟩))
    ∧ (ready = true → is_choppy = false → pyOrStr direction "NONE" ≠ "NONE" →
        10 ≤ |pyOrRat score| → |pyOrRat slope| < 1 →
      ScoreMdsRunner.decide_entry s ready is_choppy direction score slope cn
        = (⟨false, "", "slope_too_low", 0, cn⟩, ⟨some (pyOrStr direction "NONE"), 0⟩)) := by
  refine ⟨fun hr => ?_, fun hr hc => ?_, fun hr hc hdir => ?_,
    fun hr hc hdir hsc => ?_, fun hr hc hdir hsc hsl => ?_⟩
  · subst hr; rfl
  · subst hr; subst hc; rfl
  · subst hr; subst hc; simp [ScoreMdsRunner.decide_entry, hdir]
  · subst hr; subst hc; simp [ScoreMdsRunner.decide_entry, hdir, hsc]
  · subst hr; subst hc
    simp [ScoreMdsRunner.decide_entry, hdir, not_lt.mpr hsc, hsl]

/-- C1 (witness): the amended theorem applied at concrete inputs: a
`score_too_low` call resets the state, a `ready = false` call leaves it alone. -/
theorem runner_gate_failure_cases_witness :
    ScoreMdsRunner.decide_entry ⟨some "CE", 2⟩ true false (some "CE") (some 5) (some 3) 3
      = (⟨false, "", "score_too_low", 0, 3⟩, ⟨some "CE", 0⟩) ∧
    ScoreMdsRunner.decide_entry ⟨some "CE", 2⟩ false true (some "CE") (some 5) (some 3) 3
      = (⟨false, "", "mds_not_ready", 0, 0⟩, ⟨some "CE", 2⟩) :=
  ⟨(runner_gate_failure_cases ⟨some "CE", 2⟩ true false (some "CE") (some 5) (some 3) 3).2.2.2.1
      rfl rfl (by decide) (by decide),
   (runner_gate_failure_cases ⟨some "CE", 2⟩ false true (some "CE") (some 5) (some 3) 3).1 rfl⟩

/-- C2 (counterexample): for a CE position with `score = -10`, `slope = -3`,
`slow_mom = 0`, the full condition of the momentum-loss rule holds while the full
conditions of reversal and neutral fail, yet `decide_exit_mds` returns no exit —
refuting the reading that the first rule whose full stated condition holds fires. -/
theorem exit_first_full_match_cex :
    decide_exit_mds "CE" (-10) (-3) 0 = ⟨false, ""⟩ ∧
    ((-3 : ℚ) ≤ -2 ∧ (-10 : ℚ) < 12 ∧ (0 : ℚ) ≤ 0) ∧
    ¬ ((-10 : ℚ) ≤ -10 ∧ (0 : ℚ) ≤ -1) ∧
    ¬ (|(-10 : ℚ)| ≤ 6 ∧ |(0 : ℚ)| ≤ 1) := by
  decide

/-- C2 (amended): `decide_exit_mds` selects the first rule, in the order reversal,
neutral, momentum loss, whose trigger condition holds (CE triggers:
`score ≤ -10`, `|score| ≤ 6`, `slope ≤ -2 ∧ score < 12`; PE mirrored), exits with
that rule's reason exactly when the rule's slow-momentum confirmation also holds,
and returns no exit when the selected rule's confirmation fails or no trigger
holds. -/
theorem decide_exit_mds_trigger_then_confirm (score slope slow_mom : ℚ) :
    (score ≤ -10 →
      decide_exit_mds "CE" score slope slow_mom
        = if slow_mom ≤ -1 then ⟨true, "MDS Reversal (slow confirm)"⟩ else ⟨false, ""⟩)
    ∧ (¬ score ≤ -10 → |score| ≤ 6 →
      decide_exit_mds "CE" score slope slow_mom
        = if |slow_mom| ≤ 1 then ⟨true, "MDS Neutral (slow confirm)"⟩ else ⟨false, ""⟩)
    ∧ (¬ score ≤ -10 → ¬ |score| ≤ 6 → slope ≤ -2 ∧ score < 12 →
      decide_exit_mds "CE" score slope slow_mom
        = if slow_mom ≤ 0 then ⟨true, "MDS Momentum Loss (slow confirm)"⟩ else ⟨false, ""⟩)
    ∧ (¬ score ≤ -10 → ¬ |score| ≤ 6 → ¬ (slope ≤ -2 ∧ score < 12) →
      decide_exit_mds "CE" score slope slow_mom = ⟨false, ""⟩)
    ∧ (10 ≤ score →
      decide_exit_mds "PE" score slope slow_mom
        = if 1 ≤ slow_mom then ⟨true, "MDS Reversal (slow confirm)"⟩ else ⟨false, ""⟩)
    ∧ (¬ 10 ≤ score → |score| ≤ 6 →
      decide_exit_mds "PE" score slope slow_mom
        = if |slow_mom| ≤ 1 then ⟨true, "MDS Neutral (slow confirm)"⟩ else ⟨false, ""⟩)
    ∧ (¬ 10 ≤ score → ¬ |score| ≤ 6 → 2 ≤ slope ∧ -12 < score →
      decide_exit_mds "PE" score slope slow_mom
        = if 0 ≤ slow_mom then ⟨true, "MDS Momentum Loss (slow confirm)"⟩ else ⟨false, ""⟩)
    ∧ (¬ 10 ≤ score → ¬ |score| ≤ 6 → ¬ (2 ≤ slope ∧ -12 < score) →
      decide_exit_mds "PE" score slope slow_mom = ⟨false, ""⟩) := by
  refine ⟨fun h1 => ?_, fun h1 h2 => ?_, fun h1 h2 h3 => ?_, fun h1 h2 h3 => ?_,
    fun h1 => ?_, fun h1 h2 => ?_, fun h1 h2 h3 => ?_, fun h1 h2 h3 => ?_⟩ <;>
    simp [decide_exit_mds, h1, *]

/-- C2 (witness): the amended theorem applied at the counterexample input — the
reversal trigger is selected, its confirmation fails, so no exit fires. -/
theorem decide_exit_mds_trigger_then_confirm_witness :
    decide_exit_mds "CE" (-10) (-3) 0 = ⟨false, ""⟩ := by
  have h := (decide_exit_mds_trigger_then_confirm (-10) (-3) 0).1 (by norm_num)
  simpa using h

/-- C3: `decide_entry_mds` evaluates its six gates strictly in the order ready,
choppy, direction, score, slope, confirmation, returning at the first failing
gate with its reason code; when every gate passes it enters with
`option_type = direction` (`"CE"` maps to `"CE"`, anything else to `"PE"`) and
an empty reason. -/
theorem decide_entry_mds_gate_order (ready is_choppy : Bool) (direction : String)
    (score slope : ℚ) (cc cn : Int) :
    (ready = false →
      decide_entry_mds ready is_choppy direction score slope cc cn
        = ⟨false, "", "mds_not_ready"⟩)
    ∧ (ready = true → is_choppy = true →
      decide_entry_mds ready is_choppy direction score slope cc cn
        = ⟨false, "", "mds_choppy"⟩)
    ∧ (ready = true → is_choppy = false → direction = "NONE" →
      decide_entry_mds ready is_choppy direction score slope cc cn
        = ⟨false, "", "neutral_band"⟩)
    ∧ (ready = true → is_choppy = false → direction ≠ "NONE" → |score| < 10 →
      decide_entry_mds ready is_choppy direction score slope cc cn
        = ⟨false, "", "score_too_low"⟩)
    ∧ (ready = true → is_choppy = false → direction ≠ "NONE" → 10 ≤ |score| →
        |slope| < 1 →
      decide_entry_mds ready is_choppy direction score slope cc cn
        = ⟨false, "", "slope_too_low"⟩)
    ∧ (ready = true → is_choppy = false → direction ≠ "NONE" → 10 ≤ |score| →
        1 ≤ |slope| → cc < cn →
      decide_entry_mds ready is_choppy direction score slope cc cn
        = ⟨false, "", "arming"⟩)
    ∧ (ready = true → is_choppy = false → direction ≠ "NONE" → 10 ≤ |score| →
        1 ≤ |slope| → cn ≤ cc →
      decide_entry_mds ready is_choppy direction score slope cc cn
        = ⟨true, if direction = "CE" then "CE" else "PE", ""⟩) := by
  refine ⟨fun hr => ?_, fun hr hc => ?_, fun hr hc hd => ?_, fun hr hc hd h4 => ?_,
    fun hr hc hd h4 h5 => ?_, fun hr hc hd h4 h5 h6 => ?_, fun hr hc hd h4 h5 h6 => ?_⟩
  · subst hr; rfl
  · subst hr; subst hc; rfl
  · subst hr; subst hc; simp [decide_entry_mds, hd]
  · subst hr; subst hc; simp [decide_entry_mds, hd, h4]
  · subst hr; subst hc; simp [decide_entry_mds, hd, not_lt.mpr h4, h5]
  · subst hr; subst hc; simp [decide_entry_mds, hd, not_lt.mpr h4, not_lt.mpr h5, h6]
  · subst hr; subst hc
    simp [decide_entry_mds, hd, not_lt.mpr h4, not_lt.mpr h5, not_lt.mpr h6]

/-- C3 (witness): the gate-order theorem applied at concrete inputs — an unready
call short-circuits to `mds_not_ready` despite every later gate failing too, and a
fully passing call enters with `option_type = "CE"`. -/
theorem decide_entry_mds_gate_order_witness :
    decide_entry_mds false true "NONE" 0 0 0 1 = ⟨false, "", "mds_not_ready"⟩ ∧
    decide_entry_mds true false "CE" 20 2 3 3 = ⟨true, "CE", ""⟩ :=
  ⟨(decide_entry_mds_gate_order false true "NONE" 0 0 0 1).1 rfl,
   by
    have h := (decide_entry_mds_gate_order true false "CE" 20 2 3 3).2.2.2.2.2.2
      rfl rfl (by decide) (by norm_num) (by norm_num) (by norm_num)
    simpa using h⟩

end ScoreEngine

namespace ScoreEngine

/-- C4: from a freshly reset Runner, three identical qualifying CE observations
with `confirm_needed = 3` produce `confirm_count` 1, 2, 3; the first two decisions
are `arming` refusals and only the third enters. -/
theorem runner_confirmation_sequence (s : ScoreMdsRunner) (score slope : ℚ)
    (hs : 10 ≤ |score|) (hl : 1 ≤ |slope|) :
    let r1 := ScoreMdsRunner.decide_entry (ScoreMdsRunner.reset s) true false
      (some "CE") (some score) (some slope) 3
    let r2 := ScoreMdsRunner.decide_entry r1.2 true false
      (some "CE") (some score) (some slope) 3
    let r3 := ScoreMdsRunner.decide_entry r2.2 true false
      (some "CE") (some score) (some slope) 3
    r1.1.confirm_count = 1 ∧ r1.1.should_enter = false ∧ r1.1.reason = "arming" ∧
    r2.1.confirm_count = 2 ∧ r2.1.should_enter = false ∧ r2.1.reason = "arming" ∧
    r3.1.confirm_count = 3 ∧ r3.1.should_enter = true := by
  have e1 := decide_entry_qualifying ⟨none, 0⟩ "CE" score slope 3
    (by decide) (by decide) hs hl
  have e2 := decide_entry_qualifying ⟨some "CE", 1⟩ "CE" score slope 3
    (by decide) (by decide) hs hl
  have e3 := decide_entry_qualifying ⟨some "CE", 2⟩ "CE" score slope 3
    (by decide) (by decide) hs hl
  simp [ScoreMdsRunner.reset, e1, e2, e3, apply_ite]

/-- C4 (witness): the arming sequence at `score = 20`, `slope = 2`. -/
theorem runner_confirmation_sequence_witness :
    (10 : ℚ) ≤ |(20 : ℚ)| ∧ (1 : ℚ) ≤ |(2 : ℚ)| ∧
    (let r1 := ScoreMdsRunner.decide_entry (ScoreMdsRunner.reset ⟨some "PE", 9⟩) true false
       (some "CE") (some (20 : ℚ)) (some (2 : ℚ)) 3
     let r2 := ScoreMdsRunner.decide_entry r1.2 true false
       (some "CE") (some (20 : ℚ)) (some (2 : ℚ)) 3
     let r3 := ScoreMdsRunner.decide_entry r2.2 true false
       (some "CE") (some (20 : ℚ)) (some (2 : ℚ)) 3
     r1.1.confirm_count = 1 ∧ r1.1.should_enter = false ∧ r1.1.reason = "arming" ∧
     r2.1.confirm_count = 2 ∧ r2.1.should_enter = false ∧ r2.1.reason = "arming" ∧
     r3.1.confirm_count = 3 ∧ r3.1.should_enter = true) :=
  ⟨by norm_num, by norm_num,
   runner_confirmation_sequence ⟨some "PE", 9⟩ 20 2 (by norm_num) (by norm_num)⟩

/-- C5: from any Runner state, a qualifying CE observation followed by a
qualifying PE observation yields `confirm_count = 1` (not 2) on the second call,
with `last_direction` updated to `"PE"`. -/
theorem runner_direction_flip_resets (s : ScoreMdsRunner)
    (score1 slope1 score2 slope2 : ℚ) (cn1 cn2 : Int)
    (hs1 : 10 ≤ |score1|) (hl1 : 1 ≤ |slope1|)
    (hs2 : 10 ≤ |score2|) (hl2 : 1 ≤ |slope2|) :
    let r1 := ScoreMdsRunner.decide_entry s true false
      (some "CE") (some score1) (some slope1) cn1
    let r2 := ScoreMdsRunner.decide_entry r1.2 true false
      (some "PE") (some score2) (some slope2) cn2
    r2.1.confirm_count = 1 ∧ r2.2.last_direction = some "PE" ∧
    r2.2.confirm_count = 1 := by
  have e1 := decide_entry_qualifying s "CE" score1 slope1 cn1
    (by decide) (by decide) hs1 hl1
  by_cases h : s.last_direction = some "CE"
  · have e2 := decide_entry_qualifying ⟨some "CE", s.confirm_count + 1⟩
      "PE" score2 slope2 cn2 (by decide) (by decide) hs2 hl2
    simp [e1, h, e2, apply_ite]
  · have e2 := decide_entry_qualifying ⟨some "CE", 1⟩
      "PE" score2 slope2 cn2 (by decide) (by decide) hs2 hl2
    simp [e1, h, e2, apply_ite]

/-- C5 (witness): CE then PE at `score = 20`, `slope = 2` from an armed CE state. -/
theorem runner_direction_flip_resets_witness :
    (10 : ℚ) ≤ |(20 : ℚ)| ∧ (1 : ℚ) ≤ |(2 : ℚ)| ∧
    (let r1 := ScoreMdsRunner.decide_entry ⟨some "CE", 5⟩ true false
       (some "CE") (some (20 : ℚ)) (some (2 : ℚ)) 3
     let r2 := ScoreMdsRunner.decide_entry r1.2 true false
       (some "PE") (some (20 : ℚ)) (some (2 : ℚ)) 3
     r2.1.confirm_count = 1 ∧ r2.2.last_direction = some "PE" ∧
     r2.2.confirm_count = 1) :=
  ⟨by norm_num, by norm_num,
   runner_direction_flip_resets ⟨some "CE", 5⟩ 20 2 20 2 3 3
     (by norm_num) (by norm_num) (by norm_num) (by norm_num)⟩

/-- C6: `on_entry_attempted` clears `confirm_count` to 0 and preserves
`last_direction`; a subsequent qualifying observation matching the preserved
direction restarts the count at 1, never a reused higher value. -/
theorem on_entry_attempted_preserves_direction (s : ScoreMdsRunner) (d : String)
    (score slope : ℚ) (cn : Int)
    (hlast : s.last_direction = some d) (hd0 : d ≠ "") (hdN : d ≠ "NONE")
    (hs : 10 ≤ |score|) (hl : 1 ≤ |slope|) :
    (ScoreMdsRunner.on_entry_attempted s).confirm_count = 0 ∧
    (ScoreMdsRunner.on_entry_attempted s).last_direction = s.last_direction ∧
    (ScoreMdsRunner.decide_entry (ScoreMdsRunner.on_entry_attempted s) true false
      (some d) (some score) (some slope) cn).1.confirm_count = 1 := by
  refine ⟨rfl, rfl, ?_⟩
  have e := decide_entry_qualifying ⟨some d, 0⟩ d score slope cn hd0 hdN hs hl
  simp [ScoreMdsRunner.on_entry_attempted, hlast, e, apply_ite]

/-- C6 (witness): an armed CE Runner, after `on_entry_attempted`, restarts at
`confirm_count = 1` on the next qualifying CE observation. -/
theorem on_entry_attempted_preserves_direction_witness :
    (⟨some "CE", 7⟩ : ScoreMdsRunner).last_direction = some "CE" ∧
    ((ScoreMdsRunner.on_entry_attempted ⟨some "CE", 7⟩).confirm_count = 0 ∧
     (ScoreMdsRunner.on_entry_attempted ⟨some "CE", 7⟩).last_direction
       = (⟨some "CE", 7⟩ : ScoreMdsRunner).last_direction ∧
     (ScoreMdsRunner.decide_entry (ScoreMdsRunner.on_entry_attempted ⟨some "CE", 7⟩)
       true false (some "CE") (some (20 : ℚ)) (some (2 : ℚ)) 3).1.confirm_count = 1) :=
  ⟨rfl,
   on_entry_attempted_preserves_direction ⟨some "CE", 7⟩ "CE" 20 2 3
     rfl (by decide) (by decide) (by norm_num) (by norm_num)⟩

/-- C7: an armed Runner (`confirm_needed ≤ confirm_count`, `1 ≤ confirm_needed`,
`last_direction` matching) keeps returning `should_enter = true` on every further
qualifying same-direction observation, and the call leaves it armed with the same
direction — `decide_entry` alone never leaves the armed state. -/
theorem runner_armed_stays_armed (s : ScoreMdsRunner) (d : String)
    (score slope : ℚ) (cn : Int)
    (hlast : s.last_direction = some d) (hd0 : d ≠ "") (hdN : d ≠ "NONE")
    (hn : 1 ≤ cn) (harm : cn ≤ s.confirm_count)
    (hs : 10 ≤ |score|) (hl : 1 ≤ |slope|) :
    let r := ScoreMdsRunner.decide_entry s true false
      (some d) (some score) (some slope) cn
    r.1.should_enter = true ∧ r.2.last_direction = some d ∧
    cn ≤ r.2.confirm_count := by
  have e := decide_entry_qualifying s d score slope cn hd0 hdN hs hl
  have hcc : ¬ (s.confirm_count + 1 < cn) := by omega
  simp [e, hlast, hcc, apply_ite]
  try omega

/-- C7 (witness): a Runner armed at `confirm_count = 3` with `confirm_needed = 3`
enters again on the next qualifying CE observation and stays armed. -/
theorem runner_armed_stays_armed_witness :
    ((⟨some "CE", 3⟩ : ScoreMdsRunner).last_direction = some "CE" ∧
     (1 : Int) ≤ 3 ∧ (3 : Int) ≤ (⟨some "CE", 3⟩ : ScoreMdsRunner).confirm_count) ∧
    (let r := ScoreMdsRunner.decide_entry ⟨some "CE", 3⟩ true false
       (some "CE") (some (20 : ℚ)) (some (2 : ℚ)) 3
     r.1.should_enter = true ∧ r.2.last_direction = some "CE" ∧
     (3 : Int) ≤ r.2.confirm_count) :=
  ⟨⟨rfl, by norm_num, by norm_num⟩,
   runner_armed_stays_armed ⟨some "CE", 3⟩ "CE" 20 2 3
     rfl (by decide) (by decide) (by norm_num) (by norm_num) (by norm_num) (by norm_num)⟩

set_option maxHeartbeats 1000000 in
/-- C8: `decide_exit_mds` is total: an unrecognized `position_type` yields no exit
with empty reason for all numeric inputs, and for CE/PE inputs outside all three
full exit bands it likewise yields `⟨false, ""⟩`. -/
theorem decide_exit_mds_total_no_band (pt : String) (score slope slow_mom : ℚ) :
    (pt ≠ "CE" → pt ≠ "PE" →
      decide_exit_mds pt score slope slow_mom = ⟨false, ""⟩)
    ∧ (¬ (score ≤ -10 ∧ slow_mom ≤ -1) → ¬ (|score| ≤ 6 ∧ |slow_mom| ≤ 1) →
        ¬ (slope ≤ -2 ∧ score < 12 ∧ slow_mom ≤ 0) →
      decide_exit_mds "CE" score slope slow_mom = ⟨false, ""⟩)
    ∧ (¬ (10 ≤ score ∧ 1 ≤ slow_mom) → ¬ (|score| ≤ 6 ∧ |slow_mom| ≤ 1) →
        ¬ (2 ≤ slope ∧ -12 < score ∧ 0 ≤ slow_mom) →
      decide_exit_mds "PE" score slope slow_mom = ⟨false, ""⟩) := by
  refine ⟨fun h1 h2 => ?_, fun h1 h2 h3 => ?_, fun h1 h2 h3 => ?_⟩
  · simp [decide_exit_mds, h1, h2]
  · simp only [decide_exit_mds]
    norm_num
    split_ifs <;> tauto
  · simp only [decide_exit_mds]
    norm_num
    split_ifs <;> tauto

/-- C8 (witness): an unknown position type and out-of-band CE and PE inputs all
yield no exit with empty reason. -/
theorem decide_exit_mds_total_no_band_witness :
    decide_exit_mds "XX" 0 0 0 = ⟨false, ""⟩ ∧
    decide_exit_mds "CE" 8 0 5 = ⟨false, ""⟩ ∧
    decide_exit_mds "PE" (-8) 0 (-5) = ⟨false, ""⟩ :=
  ⟨(decide_exit_mds_total_no_band "XX" 0 0 0).1 (by decide) (by decide),
   (decide_exit_mds_total_no_band "CE" 8 0 5).2.1
     (by norm_num) (by norm_num) (by norm_num),
   (decide_exit_mds_total_no_band "PE" (-8) 0 (-5)).2.2
     (by norm_num) (by norm_num) (by norm_num)⟩

/-- C9: the Runner's `decide_exit` is a stateless pass-through: its decision is
exactly the pure `decide_exit_mds` applied to the coerced inputs (absent numbers
to 0, absent position type to the empty string), the Runner state is returned
unchanged, and repeating the call with identical inputs repeats the result. -/
theorem runner_decide_exit_pass_through (s : ScoreMdsRunner) (pt : Option String)
    (score slope slow_mom : Option ℚ) :
    (ScoreMdsRunner.decide_exit s pt score slope slow_mom).1.should_exit
      = (decide_exit_mds (pyOrStr pt "") (pyOrRat score) (pyOrRat slope)
          (pyOrRat slow_mom)).should_exit ∧
    (ScoreMdsRunner.decide_exit s pt score slope slow_mom).1.reason
      = (decide_exit_mds (pyOrStr pt "") (pyOrRat score) (pyOrRat slope)
          (pyOrRat slow_mom)).reason ∧
    (ScoreMdsRunner.decide_exit s pt score slope slow_mom).2 = s ∧
    ScoreMdsRunner.decide_exit
        (ScoreMdsRunner.decide_exit s pt score slope slow_mom).2 pt score slope slow_mom
      = ScoreMdsRunner.decide_exit s pt score slope slow_mom :=
  ⟨rfl, rfl, rfl, rfl⟩

/-- C10: a `decide_entry` call with `ready = false` or `is_choppy = true` returns
a decision with `should_enter = false`, empty `option_type`, `confirm_count = 0`
and `confirm_needed = 0` (the supplied `confirm_needed` is not echoed back), and
leaves the Runner's `last_direction` and `confirm_count` unchanged. -/
theorem runner_not_ready_or_choppy_frame (s : ScoreMdsRunner) (ready is_choppy : Bool)
    (direction : Option String) (score slope : Option ℚ) (cn : Int)
    (h : ready = false ∨ is_choppy = true) :
    let r := ScoreMdsRunner.decide_entry s ready is_choppy direction score slope cn
    r.1.should_enter = false ∧ r.1.option_type = "" ∧ r.1.confirm_count = 0 ∧
    r.1.confirm_needed = 0 ∧ r.2 = s := by
  intro r
  rcases h with h | h
  · subst h
    exact ⟨rfl, rfl, rfl, rfl, rfl⟩
  · subst h
    cases ready
    · exact ⟨rfl, rfl, rfl, rfl, rfl⟩
    · exact ⟨rfl, rfl, rfl, rfl, rfl⟩

/-- C10 (witness): a choppy call against a mid-arming Runner returns the default
decision fields and leaves the state `⟨some "CE", 2⟩` untouched. -/
theorem runner_not_ready_or_choppy_frame_witness :
    ((false : Bool) = false ∨ (true : Bool) = true) ∧
    (let r := ScoreMdsRunner.decide_entry ⟨some "CE", 2⟩ true true
       (some "CE") (some (20 : ℚ)) (some (2 : ℚ)) 3
     r.1.should_enter = false ∧ r.1.option_type = "" ∧ r.1.confirm_count = 0 ∧
     r.1.confirm_needed = 0 ∧ r.2 = ⟨some "CE", 2⟩) :=
  ⟨Or.inl rfl,
   runner_not_ready_or_choppy_frame ⟨some "CE", 2⟩ true true
     (some "CE") (some 20) (some 2) 3 (Or.inr rfl)⟩

end ScoreEngine
